import Mathlib

/-!
Verification of the `heyao_query` chat-bot plugin (`src/main.py`) against its
natural-language specification.

The development shallowly embeds the plugin's pipeline:
  * a model of the Python string operations the code uses
    (`str.split(maxsplit=1)`, `str.strip()`, `str.lstrip('#')`,
    `str.replace(c, '_')`, `str.isspace()`, `str()` of JSON values);
  * a JSON value type for the remote API's responses;
  * a model of `time.strftime`, which operates on a second-resolution
    `struct_time` (this is load-bearing for the filename-uniqueness claim);
  * `fetch_wechat_info` over an abstract network outcome;
  * `generate_image` over an abstract filesystem/PIL environment;
  * the command handler `handle_heyao_query` as a state-and-trace function.
-/

/- ### Python string primitives -/

/-- The ASCII whitespace characters recognised by Python's `str.strip` /
`str.split` / `str.isspace` (the Unicode-only whitespace code points are not
modelled; no claim exercises them). -/
def pyIsSpaceChar (c : Char) : Bool :=
  c = ' ' || c = '\t' || c = '\n' || c = '\r' || c = '\x0b' || c = '\x0c'

/-- Python `s.strip()`: remove leading and trailing whitespace. -/
def pyStrip (s : String) : String :=
  String.mk (((s.data.dropWhile pyIsSpaceChar).reverse.dropWhile pyIsSpaceChar).reverse)

/-- Python `s.split(maxsplit=1)` (no separator argument): skip leading
whitespace; if nothing remains, the result is `[]`; otherwise the first
element is the first run of non-whitespace, and the rest of the string after
the following whitespace run, when non-empty, is the second element
(kept verbatim, trailing whitespace included). -/
def pySplitMax1 (s : String) : List String :=
  let l := s.data.dropWhile pyIsSpaceChar
  if l.isEmpty then []
  else
    let tok := l.takeWhile (fun c => !(pyIsSpaceChar c))
    let rest := (l.dropWhile (fun c => !(pyIsSpaceChar c))).dropWhile pyIsSpaceChar
    if rest.isEmpty then [String.mk tok] else [String.mk tok, String.mk rest]

/-- Python `s.lstrip('#')`: removes **all** leading `'#'` characters. -/
def pyLstripHash (s : String) : String :=
  String.mk (s.data.dropWhile (fun c => c = '#'))

/-- Python `s.replace(a, b)` for single-character `a`, `b`. -/
def pyReplace (s : String) (a b : Char) : String :=
  String.mk (s.data.map (fun c => if c = a then b else c))

/-- Python `s.isspace()`: non-empty and all characters whitespace. -/
def pyIsSpace (s : String) : Bool :=
  !s.data.isEmpty && s.data.all pyIsSpaceChar

/-- Test `isPref needle hay`: `needle` starts `hay`. -/
def isPref : List Char → List Char → Bool
  | [], _ => true
  | _ :: _, [] => false
  | a :: as, b :: bs => a == b && isPref as bs

/-- Test `containsSeg needle hay`: `needle` occurs as a contiguous segment of `hay`. -/
def containsSeg (needle : List Char) : List Char → Bool
  | [] => needle.isEmpty
  | c :: rest => isPref needle (c :: rest) || containsSeg needle rest

/-- Python substring test `needle in hay`. -/
def strContainsB (hay needle : String) : Bool :=
  containsSeg needle.data hay.data

/- ### JSON values -/

/-- JSON values as decoded by Python's `json` module. Numbers are modelled as
integers (every number appearing in the claims is the integer `-1`). -/
inductive Json where
  | null
  | bool (b : Bool)
  | num (n : Int)
  | str (s : String)
  | arr (elems : List Json)
  | obj (fields : List (String × Json))

/-- Python `d.get(k)` on a decoded JSON object: the value of the first binding of
`k`, if any (decoded Python dicts have unique keys). -/
def jget : List (String × Json) → String → Option Json
  | [], _ => none
  | (k, v) :: rest, key => if k = key then some v else jget rest key

/-- Python `d.get(k, dflt)` on a decoded JSON object. -/
def jdictGet (kvs : List (String × Json)) (k : String) (dflt : Json) : Json :=
  match jget kvs k with
  | some v => v
  | none => dflt

/-- Python `j == s` for a string literal `s`: among decoded JSON values only a
`str` can compare equal to a `str`. -/
def jeqStr (j : Json) (s : String) : Bool :=
  match j with
  | Json.str t => t == s
  | _ => false

mutual

/-- Python `repr()` of a decoded JSON value (quote-escaping inside strings is
not modelled; no claim exercises it). -/
def pyRepr : Json → String
  | Json.null => "None"
  | Json.bool true => "True"
  | Json.bool false => "False"
  | Json.num n => toString n
  | Json.str s => "\x27" ++ s ++ "\x27"
  | Json.arr l => "[" ++ pyReprList l ++ "]"
  | Json.obj l => "\x7b" ++ pyReprObj l ++ "\x7d"

/-- Python `repr()` of a decoded JSON list's elements, comma-separated. -/
def pyReprList : List Json → String
  | [] => ""
  | [j] => pyRepr j
  | j :: rest => pyRepr j ++ ", " ++ pyReprList rest

/-- Python `repr()` of a decoded JSON object's bindings, comma-separated. -/
def pyReprObj : List (String × Json) → String
  | [] => ""
  | [(k, v)] => "\x27" ++ k ++ "\x27: " ++ pyRepr v
  | (k, v) :: rest => "\x27" ++ k ++ "\x27: " ++ pyRepr v ++ ", " ++ pyReprObj rest

end

/-- Python `str()` of a decoded JSON value: the raw string for `str` values,
`repr` otherwise (which for `None`/`True`/`False`/numbers coincides with
`str`). -/
def pyStr : Json → String
  | Json.str s => s
  | j => pyRepr j

/- ### Time model -/

/-- The fields of Python's `time.struct_time` used by the formats in the
source. `struct_time` has **no sub-second field**: `time.localtime()`
truncates the clock to whole seconds. -/
structure StructTime where
  year : Nat
  month : Nat
  mday : Nat
  hour : Nat
  minute : Nat
  second : Nat
deriving DecidableEq

/-- A wall-clock instant: the second-resolution `struct_time` plus the
microsecond part of the real clock, which `time.localtime()` discards. -/
structure Instant where
  tm : StructTime
  micros : Nat
deriving DecidableEq

/-- Zero-pad a natural number to `width` digits. -/
def padZero (width : Nat) (n : Nat) : List Char :=
  let s := (toString n).data
  List.replicate (width - s.length) '0' ++ s

/-- C-library `strftime` over the directives used by the source
(`%Y %m %d %H %M %S`). An unsupported directive — in particular `%f`, which
belongs to `datetime.strftime`, not `time.strftime` — is passed through
literally, as glibc does. -/
def strftimeChars : List Char → StructTime → List Char
  | [], _ => []
  | '%' :: c :: rest, t =>
    (match c with
      | 'Y' => padZero 4 t.year
      | 'm' => padZero 2 t.month
      | 'd' => padZero 2 t.mday
      | 'H' => padZero 2 t.hour
      | 'M' => padZero 2 t.minute
      | 'S' => padZero 2 t.second
      | '%' => ['%']
      | other => ['%', other]) ++ strftimeChars rest t
  | c :: rest, t => c :: strftimeChars rest t

/-- Python `time.strftime(fmt)`: formats the current `struct_time`. The
microsecond part of the instant is invisible to it. -/
def pyTimeStrftime (fmt : String) (i : Instant) : String :=
  String.mk (strftimeChars fmt.data i.tm)

/- ### API client: `fetch_wechat_info` (src/main.py lines 29-77) -/

/-- The possible outcomes of the `requests.post` call inside
`fetch_wechat_info`: a timeout (`requests.exceptions.Timeout`), another
request error (`requests.exceptions.RequestException`), no response object at
all, or an HTTP response with a status code and a body that either decodes to
JSON (`some j`) or raises `json.JSONDecodeError` (`none`). -/
inductive NetOutcome where
  | timeout
  | reqError
  | noResponse
  | response (status : Nat) (body : Option Json)

/-- The client `fetch_wechat_info` (lines 42-77): `if response and response.status_code
== 200` — a `requests.Response` is truthy iff `status_code < 400`; on 200 the
body is decoded (`response.json()`, decode failure caught) and
`raise_for_status()` is a no-op; every failure path returns `None` via its
`except` clause, so no exception propagates (the function is total). -/
def fetch_wechat_info : NetOutcome → Option Json
  | NetOutcome.timeout => none
  | NetOutcome.reqError => none
  | NetOutcome.noResponse => none
  | NetOutcome.response status body =>
    if status < 400 ∧ status = 200 then
      match body with
      | some j => some j
      | none => none
    else none

/- ### Image renderer: `generate_image` (src/main.py lines 80-178) -/

/-- The batch sanitisation at lines 159-161:
`batch_number.lstrip('#').replace('/', '_').replace('\\', '_').replace(' ', '_')`,
then the literal `UnknownBatch` when the result is empty or whitespace-only
(`if not safe_batch or safe_batch.isspace()`). -/
def safe_batch (batch : String) : String :=
  let s := pyReplace (pyReplace (pyReplace (pyLstripHash batch) '/' '_') '\\' '_') ' ' '_'
  if s = "" ∨ pyIsSpace s then "UnknownBatch" else s

/-- The sanitiser as §4.3 of the spec words it, taken at the amended reading:
drop **all** leading `'#'` characters, map each of `'/'`, `'\\'`, `' '` to
`'_'`, and substitute `UnknownBatch` when the result is empty or
whitespace-only. -/
def specSanitizeAll (b : String) : String :=
  let s := String.mk ((b.data.dropWhile (fun c => c = '#')).map
    (fun c => if c = '/' ∨ c = '\\' ∨ c = ' ' then '_' else c))
  if s = "" ∨ pyIsSpace s then "UnknownBatch" else s

/-- The sanitiser as claim C4 literally words it: strip **a** (single) leading
`'#'`, map each of `'/'`, `'\\'`, `' '` to `'_'`, and substitute
`UnknownBatch` when the result is empty or whitespace-only. -/
def claimSanitizeOne (b : String) : String :=
  let l := match b.data with
    | '#' :: rest => rest
    | other => other
  let s := String.mk (l.map (fun c => if c = '/' ∨ c = '\\' ∨ c = ' ' then '_' else c))
  if s = "" ∨ pyIsSpace s then "UnknownBatch" else s

/-- The parts of the filesystem/PIL environment `generate_image` interacts
with: whether the template `hymb.png` and the font `FZSTK.TTF` exist at their
fixed plugin-relative paths, whether `img.save` succeeds, the pixel
dimensions of the template, and the current wall-clock instant. -/
structure RenderEnv where
  templateExists : Bool
  fontExists : Bool
  saveOk : Bool
  templateDims : Nat × Nat
  now : Instant

/-- A successfully generated image: the saved path (relative to the plugin
directory), its pixel dimensions, the six field texts drawn at the fixed
coordinates (in `content_map` order `v0 v1 v2 v3 v4 v5`), the drawn
human-readable timestamp, and whether the draws fell back to
`ImageFont.load_default()`. -/
structure RenderedImage where
  path : String
  dims : Nat × Nat
  drawnTexts : List String
  timestampText : String
  usedDefaultFont : Bool

/-- The filename built at lines 162-163:
`f"Heyao_{safe_batch}_{time.strftime('%Y%m%d%H%M%S_%f')}.png"`. -/
def render_filename (b : String) (now : Instant) : String :=
  "Heyao_" ++ safe_batch b ++ "_" ++ pyTimeStrftime "%Y%m%d%H%M%S_%f" now ++ ".png"

/-- The renderer `generate_image` (lines 80-175). Missing template → `None` (line 92).
Missing font → fall back to the default font, not an error (lines 94-96,
116-119). The six texts are drawn as `str(text)` (line 129). The sanitised
batch and filename are computed at lines 159-164; `batch_number.lstrip('#')`
raises `AttributeError` when `v0` holds a non-string JSON value, which the
broad `except` at line 173 turns into `None`. A failing `img.save` is caught
the same way. On success the saved path is returned. -/
def generate_image (env : RenderEnv) (data : List (String × Json)) : Option RenderedImage :=
  if env.templateExists then
    let batch_number := jdictGet data "v0" (Json.str "N/A")
    let texts := [pyStr (jdictGet data "v0" (Json.str "N/A")),
                  pyStr (jdictGet data "v1" (Json.str "N/A")),
                  pyStr (jdictGet data "v2" (Json.str "N/A")),
                  pyStr (jdictGet data "v3" (Json.str "N/A")),
                  pyStr (jdictGet data "v4" (Json.str "N/A")),
                  pyStr (jdictGet data "v5" (Json.str "N/A"))]
    let tsText := pyTimeStrftime "%Y-%m-%d %H:%M:%S" env.now
    match batch_number with
    | Json.str b =>
      if env.saveOk then
        some (RenderedImage.mk ("temp_images/" ++ render_filename b env.now)
          env.templateDims texts tsText (!env.fontExists))
      else none
    | _ => none
  else none

/-- String-valued dictionaries (the `Dict[str, str]` annotation of
`generate_image`), injected into JSON objects. -/
def sdict (d : List (String × String)) : List (String × Json) :=
  d.map (fun p => (p.1, Json.str p.2))

/-- Lookup in a string-valued dictionary. -/
def sget : List (String × String) → String → Option String
  | [], _ => none
  | (k, v) :: rest, key => if k = key then some v else sget rest key

/- ### Response extractor (src/main.py lines 230-261) -/

/-- The generic fallback message at line 236. -/
def pyDefaultMsg : String := "未找到订单信息或API返回格式不正确。"

/-- The test `api_data.get('code') == -1` (line 238): only a JSON number `-1` compares
equal to the Python int `-1`. -/
def jgetCodeIsNeg1 (kvs : List (String × Json)) : Bool :=
  match jget kvs "code" with
  | some (Json.num n) => n == -1
  | _ => false

/-- The error-message construction at lines 236-242:
`error_msg = api_data.get('msg', DEFAULT)`; only when that equals the
`DEFAULT` sentinel does the code consult `code == -1` and then `'error' in
api_data`; finally `str(error_msg)`. -/
def build_error_msg (kvs : List (String × Json)) (oid : String) : String :=
  let error_msg : Json := jdictGet kvs "msg" (Json.str pyDefaultMsg)
  let error_msg2 : Json :=
    if jeqStr error_msg pyDefaultMsg then
      if jgetCodeIsNeg1 kvs then
        Json.str ("未找到订单 " ++ oid ++ " 的信息。")
      else if (jget kvs "error").isSome then
        Json.str ("API错误: " ++ pyStr (jdictGet kvs "error" Json.null))
      else error_msg
    else error_msg
  pyStr error_msg2

/-- The cascade consulted when `msg` is absent (or equals the sentinel):
`code == -1`, then `error`, then the generic fallback. -/
def fallbackCascade (kvs : List (String × Json)) (oid : String) : String :=
  if jgetCodeIsNeg1 kvs then "未找到订单 " ++ oid ++ " 的信息。"
  else if (jget kvs "error").isSome then "API错误: " ++ pyStr (jdictGet kvs "error" Json.null)
  else pyDefaultMsg

/-- The error-message precedence as amended claim C1 words it: the raw `msg`
value first whenever present (and different from the generic fallback
sentinel string), then `code == -1` mapped to the order-not-found text, then
the explicit `error` field, then the generic fallback. -/
def build_error_msg_amended (kvs : List (String × Json)) (oid : String) : String :=
  match jget kvs "msg" with
  | some v => if jeqStr v pyDefaultMsg then fallbackCascade kvs oid else pyStr v
  | none => fallbackCascade kvs oid

/-- The outcome of the extraction step: the order-details dictionary, or the
user-facing error text yielded on the early-return paths. -/
inductive Extracted where
  | ok (details : List (String × Json))
  | err (msg : String)

/-- The response navigation at lines 230-261. The guard at line 234
(`not query_data_list or not isinstance(query_data_list, list) or
len(query_data_list) == 0`) passes exactly for a non-empty JSON array; the
guard at line 248 (`not order_details or not isinstance(order_details,
dict)`) passes exactly for a **non-empty** JSON object (an empty dict is
falsy). Calling `.get` on a non-dict raises `AttributeError`, which the broad
`except` at line 256 converts to the generic processing-error text. -/
def extract_order_details (api_data : Json) (oid : String) : Extracted :=
  match api_data with
  | Json.obj kvs =>
    match jget kvs "queryDataList" with
    | some (Json.arr (first :: _)) =>
      match first with
      | Json.obj fkvs =>
        match jget fkvs "content" with
        | some (Json.obj (c0 :: crest)) => Extracted.ok (c0 :: crest)
        | _ => Extracted.err ("查询成功，但未能解析订单详细信息。(订单号: " ++ oid ++ ")")
      | _ => Extracted.err ("处理API响应时发生错误。(订单号: " ++ oid ++ ")")
    | _ => Extracted.err ("查询失败：" ++ build_error_msg kvs oid ++ " (订单号: " ++ oid ++ ")")
  | _ => Extracted.err ("处理API响应时发生错误。(订单号: " ++ oid ++ ")")

/- ### Command handler: `handle_heyao_query` (src/main.py lines 196-312) -/

/-- The externally visible actions of one handler invocation, in order:
plain-text messages yielded to the chat, the API call, the attempted
`unlink` of the previous image (with its success flag), the update of
`self.last_image_path`, and the image handoff to the host (with whether the
packaging/yield succeeded). -/
inductive BotAction where
  | plainMsg (s : String)
  | fetchCall (orderId : String)
  | unlinkAttempt (path : String) (ok : Bool)
  | setPointer (path : String)
  | imageHandoff (path : String) (ok : Bool)
deriving DecidableEq

/-- The per-instance plugin state: `self.last_image_path` plus the set of
image files currently existing on disk (a real filesystem holds each path at
most once, so deletion is modelled as set removal). -/
structure PluginState where
  last_image_path : Option String
  files : List String
deriving DecidableEq

/-- Everything outside the plugin that one invocation can observe: the
incoming message text, the network outcome, whether the `unlink` of the old
image succeeds (line 268 vs. the `OSError` branch), the renderer environment,
and whether the `ImageComp` packaging/yield succeeds (the `try` at lines
290-302). -/
structure Invocation where
  message : String
  net : NetOutcome
  unlinkOk : Bool
  renv : RenderEnv
  handoffOk : Bool

/-- One run of `handle_heyao_query`, returning the new plugin state and the
trace of actions. Mirrors lines 196-312: argument validation (lines 200-216,
the second emptiness check being unreachable because `split` never yields a
whitespace-only token), the acknowledgment and API call (219-222), the
fetch-failure message (224-228), the extraction step (230-261), the deletion
of the previous image before rendering (263-275; failure is logged only), the
render call (279), the pointer update before the handoff `try` (286), the
degraded message when packaging/handoff throws (299-302), and the
render-failure message that leaves the pointer untouched (306-310). -/
def handle_heyao_query (st : PluginState) (inv : Invocation) : PluginState × List BotAction :=
  let parts := pySplitMax1 inv.message
  if parts.length < 2 ∨ pyStrip (parts.getD 1 "") = "" then
    (st, [BotAction.plainMsg "请提供订单号。用法：/heyao <订单号>"])
  else
    let order_id_user := pyStrip (parts.getD 1 "")
    if order_id_user = "" then
      (st, [BotAction.plainMsg "订单号不能为空。用法：/heyao <订单号>"])
    else
      let preActs := [BotAction.plainMsg ("正在查询订单号：" ++ order_id_user ++ "..."),
                      BotAction.fetchCall order_id_user]
      match fetch_wechat_info inv.net with
      | none =>
        (st, preActs ++ [BotAction.plainMsg ("查询订单 " ++ order_id_user ++ " 时出错，请检查日志或稍后再试。")])
      | some api_data =>
        match extract_order_details api_data order_id_user with
        | Extracted.err m => (st, preActs ++ [BotAction.plainMsg m])
        | Extracted.ok order_details =>
          let del : List String × List BotAction :=
            match st.last_image_path with
            | some p =>
              if p ∈ st.files then
                if inv.unlinkOk then (st.files.filter (fun q => q != p), [BotAction.unlinkAttempt p true])
                else (st.files, [BotAction.unlinkAttempt p false])
              else (st.files, [])
            | none => (st.files, [])
          match generate_image inv.renv order_details with
          | some r =>
            let st1 : PluginState := PluginState.mk (some r.path) (del.1 ++ [r.path])
            if inv.handoffOk then
              (st1, preActs ++ del.2 ++ [BotAction.setPointer r.path, BotAction.imageHandoff r.path true])
            else
              (st1, preActs ++ del.2 ++ [BotAction.setPointer r.path, BotAction.imageHandoff r.path false,
                                         BotAction.plainMsg "生成图片成功，但发送时遇到问题。"])
          | none =>
            (PluginState.mk st.last_image_path del.1,
             preActs ++ del.2 ++ [BotAction.plainMsg ("成功获取订单信息，但在生成图片时失败。(订单号: " ++ order_id_user ++ ")")])

/-- The validation step of lines 202-210 in isolation: `some oid` exactly when
the message carries a second whitespace-separated token whose trimmed form
`oid` is non-empty (the condition of claim C5). -/
def parsedOrderId (msg : String) : Option String :=
  let parts := pySplitMax1 msg
  if parts.length < 2 ∨ pyStrip (parts.getD 1 "") = "" then none
  else some (pyStrip (parts.getD 1 ""))

/- ### Concrete fixtures used by the closed theorems -/

/-- A successful API response whose only order detail is `v0 = "B1"`. -/
def goodApi : Json :=
  Json.obj [("queryDataList", Json.arr [Json.obj [("content", Json.obj [("v0", Json.str "B1")])]])]

/-- A render environment in which everything works, at wall-clock instant
2026-01-02 03:04:05.111111. -/
def envOkA : RenderEnv :=
  RenderEnv.mk true true true (1, 1) (Instant.mk (StructTime.mk 2026 1 2 3 4 5) 111111)

/-- The same second as `envOkA` but at microsecond 999999. -/
def envOkB : RenderEnv :=
  RenderEnv.mk true true true (1, 1) (Instant.mk (StructTime.mk 2026 1 2 3 4 5) 999999)

/-- A render environment whose template file is missing, so rendering fails. -/
def envNoTemplate : RenderEnv :=
  RenderEnv.mk false true true (1, 1) (Instant.mk (StructTime.mk 2026 1 2 3 4 6) 0)

/-- A render environment with the font missing but everything else intact. -/
def envNoFont : RenderEnv :=
  RenderEnv.mk true false true (7, 9) (Instant.mk (StructTime.mk 2026 1 2 3 4 5) 0)

/-- An invocation that queries order `123` successfully end-to-end. -/
def invGoodA : Invocation :=
  Invocation.mk "heyao 123" (NetOutcome.response 200 (some goodApi)) true envOkA true

/-- A second invocation for order `123` whose render step fails (missing
template); the unlink of the previous image succeeds. -/
def invRenderFail : Invocation :=
  Invocation.mk "heyao 123" (NetOutcome.response 200 (some goodApi)) true envNoTemplate true

/-- The path produced by a successful render of `goodApi`'s details in
`envOkA`. -/
def pathA : String := "temp_images/Heyao_B1_20260102030405_%f.png"

/-- The API response of claim C1's counterexample: both `error` and `msg`
present, `queryDataList` empty. -/
def c1fixture : List (String × Json) :=
  [("error", Json.str "EEE"), ("msg", Json.str "MMM"), ("queryDataList", Json.arr [])]

/-- The API response of claim C7's counterexample: the first element's
`content` is a dictionary, but an empty one. -/
def c7fixture : Json :=
  Json.obj [("queryDataList", Json.arr [Json.obj [("content", Json.obj [])]])]

/- ### Helper lemmas -/

/-- Applying `pyStr` to a JSON string returns the raw string. -/
lemma pyStr_str (s : String) : pyStr (Json.str s) = s := rfl

/-- A successful `parsedOrderId` yields the components of the validation
condition at line 204: at least two split parts, the stripped second part,
and its non-emptiness. -/
lemma parsedOrderId_elim {msg oid : String} (h : parsedOrderId msg = some oid) :
    ¬((pySplitMax1 msg).length < 2)
    ∧ pyStrip ((pySplitMax1 msg).getD 1 "") = oid
    ∧ oid ≠ "" := by
  simp only [parsedOrderId] at h
  split at h
  · cases h
  · rename_i hc
    obtain ⟨hc1, hc2⟩ := not_or.mp hc
    have heq := Option.some.inj h
    exact ⟨hc1, heq, fun he => hc2 (heq.trans he)⟩

/-- Lookup in an `sdict` is the string lookup, boxed. -/
lemma jget_sdict (d : List (String × String)) (k : String) :
    jget (sdict d) k = Option.map Json.str (sget d k) := by
  induction d with
  | nil => rfl
  | cons hd tl ih =>
    obtain ⟨a, b⟩ := hd
    simp only [sdict, List.map_cons] at ih ⊢
    simp only [jget, sget]
    by_cases h : a = k
    · rw [if_pos h, if_pos h]; rfl
    · rw [if_neg h, if_neg h]; exact ih

/-- Lookup `d.get(k, dflt)` over an `sdict` is always a JSON string. -/
lemma jdictGet_sdict_str (d : List (String × String)) (k dflt : String) :
    jdictGet (sdict d) k (Json.str dflt) = Json.str ((sget d k).getD dflt) := by
  unfold jdictGet
  rw [jget_sdict]
  cases sget d k <;> rfl

/-- A key absent from a string dictionary looks up to `none`. -/
lemma sget_eq_none {d : List (String × String)} {k : String} (h : k ∉ d.map Prod.fst) :
    sget d k = none := by
  induction d with
  | nil => rfl
  | cons hd tl ih =>
    obtain ⟨a, b⟩ := hd
    simp only [List.map_cons, List.mem_cons] at h
    push_neg at h
    simp only [sget]
    rw [if_neg (fun he => h.1 he.symm)]
    exact ih h.2

/-- The three successive single-character `replace` calls of line 159 equal
one map over the combined character substitution. -/
lemma replace3_eq_map (l : List Char) :
    ((l.map (fun c => if c = '/' then '_' else c)).map
        (fun c => if c = '\\' then '_' else c)).map
        (fun c => if c = ' ' then '_' else c)
      = l.map (fun c => if c = '/' ∨ c = '\\' ∨ c = ' ' then '_' else c) := by
  rw [List.map_map, List.map_map]
  apply List.map_congr_left
  intro c _
  by_cases h1 : c = '/'
  · subst h1; rfl
  · by_cases h2 : c = '\\'
    · subst h2; rfl
    · by_cases h3 : c = ' '
      · subst h3; rfl
      · simp [Function.comp, h1, h2, h3]

/-- The source's `safe_batch` computation coincides with the spec-worded
sanitiser (drop all leading `'#'`, one combined substitution map, fallback). -/
lemma safe_batch_eq_spec (b : String) : safe_batch b = specSanitizeAll b := by
  simp only [safe_batch, specSanitizeAll, pyReplace, pyLstripHash]
  rw [replace3_eq_map]

/-- A JSON value that compares equal to a Python string is that string. -/
lemma jeqStr_true {j : Json} {s : String} (h : jeqStr j s = true) : j = Json.str s := by
  cases j with
  | null => exact Bool.noConfusion h
  | bool b => exact Bool.noConfusion h
  | num n => exact Bool.noConfusion h
  | str t => exact congrArg Json.str (eq_of_beq h)
  | arr l => exact Bool.noConfusion h
  | obj l => exact Bool.noConfusion h

/-- A two-element prefix followed by an append admits the obvious
decomposition before a fixed suffix. -/
lemma exists_pre_cons_cons {α : Type} (x y : α) (l2 l3 : List α) :
    ∃ pre, x :: y :: (l2 ++ l3) = pre ++ l3 :=
  ⟨x :: y :: l2, by simp⟩

/- ### Claim theorems -/

/-- C6: the API client returns the `None` failure sentinel on timeout,
request error, missing response, non-200 status, and JSON-decode failure
(`b = none`), and returns the parsed JSON exactly for an HTTP 200 response
with a decodable body; `fetch_wechat_info` is a total function of the network
outcome, so no exception reaches the caller. -/
theorem c6_fetch_failure_sentinel :
    fetch_wechat_info NetOutcome.timeout = none
    ∧ fetch_wechat_info NetOutcome.reqError = none
    ∧ fetch_wechat_info NetOutcome.noResponse = none
    ∧ ∀ (s : Nat) (b : Option Json),
        fetch_wechat_info (NetOutcome.response s b) = if s = 200 then b else none := by
  refine ⟨rfl, rfl, rfl, fun s b => ?_⟩
  by_cases h : s = 200
  · subst h
    cases b with
    | some j => simp [fetch_wechat_info]
    | none => simp [fetch_wechat_info]
  · simp [fetch_wechat_info, h]

/-- C5: when the message has no second whitespace-separated token (or its
trimmed second token is empty — `parsedOrderId` is `none`), the handler
yields exactly the usage-error text, leaves the state unchanged, and its
trace contains no API call. -/
theorem c5_usage_error_no_fetch (st : PluginState) (inv : Invocation)
    (h : parsedOrderId inv.message = none) :
    handle_heyao_query st inv = (st, [BotAction.plainMsg "请提供订单号。用法：/heyao <订单号>"])
    ∧ ∀ oid, BotAction.fetchCall oid ∉ (handle_heyao_query st inv).2 := by
  have hc : (pySplitMax1 inv.message).length < 2
      ∨ pyStrip ((pySplitMax1 inv.message).getD 1 "") = "" := by
    by_contra hnc
    simp only [parsedOrderId] at h
    rw [if_neg hnc] at h
    cases h
  have he : handle_heyao_query st inv
      = (st, [BotAction.plainMsg "请提供订单号。用法：/heyao <订单号>"]) := by
    simp only [handle_heyao_query]
    rw [if_pos hc]
  refine ⟨he, fun oid => ?_⟩
  rw [he]
  simp

/-- Witness for C5 at the argument-less message `"heyao"`. -/
theorem c5_usage_error_no_fetch_witness :
    parsedOrderId "heyao" = none
    ∧ handle_heyao_query (PluginState.mk none []) (Invocation.mk "heyao" NetOutcome.timeout true envOkA true)
        = (PluginState.mk none [], [BotAction.plainMsg "请提供订单号。用法：/heyao <订单号>"]) :=
  ⟨by decide, (c5_usage_error_no_fetch (PluginState.mk none [])
    (Invocation.mk "heyao" NetOutcome.timeout true envOkA true) (by decide)).1⟩

/-- C3 (code bug): two renders of the details `{v0: "#A/B C"}` issued in the
same wall-clock second (2026-01-02 03:04:05) but at different microseconds
produce the **identical** filename
`Heyao_A_B_C_20260102030405_%f.png` — `time.strftime` reads only the
second-resolution `struct_time` and passes the unsupported `%f` directive
through literally, so the timestamp component has no sub-second resolution
and the names collide, contrary to the claim and to the code's own comment
(line 162: add microseconds to improve uniqueness). -/
theorem c3_same_second_filename_collision :
    (generate_image envOkA [("v0", Json.str "#A/B C")]).map RenderedImage.path
      = some "temp_images/Heyao_A_B_C_20260102030405_%f.png"
    ∧ (generate_image envOkB [("v0", Json.str "#A/B C")]).map RenderedImage.path
      = some "temp_images/Heyao_A_B_C_20260102030405_%f.png"
    ∧ envOkA.now.tm = envOkB.now.tm
    ∧ envOkA.now.micros ≠ envOkB.now.micros :=
  ⟨rfl, rfl, rfl, by decide⟩

/-- C4 counterexample: for the batch `"##X"` the filename embeds `X` — the
source's `lstrip('#')` strips **all** leading `'#'` — whereas the sanitiser
as the claim words it (strip *a* leading `'#'`) yields `#X`, so the claimed
characterisation of the embedded batch fails at `"##X"`. -/
theorem c4_lstrip_counterexample :
    (generate_image envOkA [("v0", Json.str "##X")]).map RenderedImage.path
      = some "temp_images/Heyao_X_20260102030405_%f.png"
    ∧ claimSanitizeOne "##X" = "#X"
    ∧ (generate_image envOkA [("v0", Json.str "##X")]).map RenderedImage.path
      ≠ some ("temp_images/" ++ ("Heyao_" ++ claimSanitizeOne "##X"
          ++ "_" ++ pyTimeStrftime "%Y%m%d%H%M%S_%f" envOkA.now ++ ".png")) :=
  ⟨rfl, rfl, by decide⟩

/-- C4 (amended): for every successful render whose details bind `v0` to a
string `b`, the saved filename is
`Heyao_<sanitizedBatch>_<timestamp>.png` where the sanitised batch strips
**all** leading `'#'` characters, replaces each `'/'`, `'\\'` and `' '` with
`'_'`, and falls back to `UnknownBatch` when the result is empty or
whitespace-only; in particular `#A/B C` sanitises to `A_B_C`. -/
theorem c4_sanitized_batch_in_filename (env : RenderEnv) (b : String)
    (rest : List (String × Json)) (r : RenderedImage)
    (h : generate_image env (("v0", Json.str b) :: rest) = some r) :
    r.path = "temp_images/" ++ ("Heyao_" ++ specSanitizeAll b
        ++ "_" ++ pyTimeStrftime "%Y%m%d%H%M%S_%f" env.now ++ ".png")
    ∧ specSanitizeAll "#A/B C" = "A_B_C" := by
  refine ⟨?_, by decide⟩
  have hb : jdictGet (("v0", Json.str b) :: rest) "v0" (Json.str "N/A") = Json.str b := by
    simp [jdictGet, jget]
  simp only [generate_image, hb] at h
  split at h
  · split at h
    · have hr := Option.some.inj h
      rw [← hr]
      simp only [render_filename, safe_batch_eq_spec]
    · cases h
  · cases h

/-- Witness for the amended C4 at the batch `"#A/B C"` in `envOkA`. -/
theorem c4_sanitized_batch_in_filename_witness :
    (RenderedImage.mk "temp_images/Heyao_A_B_C_20260102030405_%f.png" (1, 1)
        ["#A/B C", "N/A", "N/A", "N/A", "N/A", "N/A"] "2026-01-02 03:04:05" false).path
      = "temp_images/" ++ ("Heyao_" ++ specSanitizeAll "#A/B C"
          ++ "_" ++ pyTimeStrftime "%Y%m%d%H%M%S_%f" envOkA.now ++ ".png")
    ∧ specSanitizeAll "#A/B C" = "A_B_C" :=
  c4_sanitized_batch_in_filename envOkA "#A/B C" []
    (RenderedImage.mk "temp_images/Heyao_A_B_C_20260102030405_%f.png" (1, 1)
      ["#A/B C", "N/A", "N/A", "N/A", "N/A", "N/A"] "2026-01-02 03:04:05" false) (by rfl)

/-- C1 counterexample: for a response carrying **both** an `error` field
(`"EEE"`) and a `msg` field (`"MMM"`) with an empty `queryDataList`, the
emitted message is built from `msg` — it contains `MMM` and incorporates
neither the `error` value nor the `API错误` prefix, contradicting the claimed
precedence (`error` first). -/
theorem c1_msg_beats_error_counterexample :
    extract_order_details (Json.obj c1fixture) "123"
      = Extracted.err "查询失败：MMM (订单号: 123)"
    ∧ strContainsB "查询失败：MMM (订单号: 123)" "MMM" = true
    ∧ strContainsB "查询失败：MMM (订单号: 123)" "EEE" = false
    ∧ strContainsB "查询失败：MMM (订单号: 123)" "API错误" = false :=
  ⟨rfl, by decide, by decide, by decide⟩

/-- C1 (amended): for every API response without a usable `queryDataList`,
the user-facing error message follows the precedence: the raw `msg` value
first whenever `msg` is present (and not equal to the generic fallback
sentinel string), then `code == -1` mapped to the order-not-found text, then
the explicit `error` field, then the generic fallback. -/
theorem c1_error_message_precedence (kvs : List (String × Json)) (oid : String) :
    build_error_msg kvs oid = build_error_msg_amended kvs oid := by
  simp only [build_error_msg, build_error_msg_amended, jdictGet]
  cases hm : jget kvs "msg" with
  | none =>
    by_cases hc : jgetCodeIsNeg1 kvs = true
    · simp [jeqStr, fallbackCascade, jdictGet, hc, pyStr_str]
    · by_cases he : (jget kvs "error").isSome = true
      · simp [jeqStr, fallbackCascade, jdictGet, hc, he, pyStr_str]
      · simp [jeqStr, fallbackCascade, jdictGet, hc, he, pyStr_str]
  | some v =>
    by_cases hv : jeqStr v pyDefaultMsg = true
    · have hveq := jeqStr_true hv
      subst hveq
      by_cases hc : jgetCodeIsNeg1 kvs = true
      · simp [jeqStr, fallbackCascade, jdictGet, hc, pyStr_str]
      · by_cases he : (jget kvs "error").isSome = true
        · simp [jeqStr, fallbackCascade, jdictGet, hc, he, pyStr_str]
        · simp [jeqStr, fallbackCascade, jdictGet, hc, he, pyStr_str]
    · simp [hv, pyStr_str]

/-- C7 counterexample: for a response whose first `queryDataList` element has
the dictionary `content = {}` (a dictionary, as the claim requires), the
extraction step does **not** return that dictionary — the falsiness check
`not order_details` fires first and the unparsable-details message is
yielded instead. -/
theorem c7_empty_content_counterexample :
    extract_order_details c7fixture "123"
      = Extracted.err "查询成功，但未能解析订单详细信息。(订单号: 123)"
    ∧ extract_order_details c7fixture "123" ≠ Extracted.ok [] := by
  refine ⟨rfl, fun h => ?_⟩
  rw [show extract_order_details c7fixture "123"
      = Extracted.err "查询成功，但未能解析订单详细信息。(订单号: 123)" from rfl] at h
  exact Extracted.noConfusion h

/-- C7 (amended): for every API response whose `queryDataList` is a non-empty
list whose first element has a **non-empty** dictionary `content`, the
extraction step returns exactly that dictionary, unchanged. -/
theorem c7_nonempty_content_passthrough (kvs fkvs : List (String × Json))
    (tail : List Json) (c0 : String × Json) (crest : List (String × Json)) (oid : String)
    (hq : jget kvs "queryDataList" = some (Json.arr (Json.obj fkvs :: tail)))
    (hc : jget fkvs "content" = some (Json.obj (c0 :: crest))) :
    extract_order_details (Json.obj kvs) oid = Extracted.ok (c0 :: crest) := by
  simp only [extract_order_details, hq, hc]

/-- Witness for the amended C7: a fixture response with content
`{v0: "a", v5: "b"}` passes through verbatim. -/
theorem c7_nonempty_content_passthrough_witness :
    jget [("queryDataList", Json.arr [Json.obj
        [("content", Json.obj [("v0", Json.str "a"), ("v5", Json.str "b")])]])] "queryDataList"
      = some (Json.arr (Json.obj [("content", Json.obj [("v0", Json.str "a"), ("v5", Json.str "b")])] :: []))
    ∧ extract_order_details (Json.obj [("queryDataList", Json.arr [Json.obj
        [("content", Json.obj [("v0", Json.str "a"), ("v5", Json.str "b")])]])]) "123"
      = Extracted.ok [("v0", Json.str "a"), ("v5", Json.str "b")] :=
  ⟨rfl, c7_nonempty_content_passthrough
    [("queryDataList", Json.arr [Json.obj
      [("content", Json.obj [("v0", Json.str "a"), ("v5", Json.str "b")])]])]
    [("content", Json.obj [("v0", Json.str "a"), ("v5", Json.str "b")])]
    [] ("v0", Json.str "a") [("v5", Json.str "b")] "123" rfl rfl⟩

/-- C9: for every string-valued details dictionary, when the font file is
missing but the template exists and saving succeeds, rendering still succeeds
(the missing-font branch is not an error branch), every draw uses the
built-in default font, and the produced image has the template's dimensions. -/
theorem c9_missing_font_render_succeeds (env : RenderEnv) (d : List (String × String))
    (ht : env.templateExists = true) (hs : env.saveOk = true) (hf : env.fontExists = false) :
    ∃ r, generate_image env (sdict d) = some r
      ∧ r.dims = env.templateDims ∧ r.usedDefaultFont = true := by
  simp only [generate_image, ht, hs, hf, jdictGet_sdict_str]
  exact ⟨_, rfl, rfl, rfl⟩

/-- Witness for C9: the empty details dictionary rendered in `envNoFont`. -/
theorem c9_missing_font_render_succeeds_witness :
    envNoFont.templateExists = true ∧ envNoFont.saveOk = true ∧ envNoFont.fontExists = false
    ∧ ∃ r, generate_image envNoFont (sdict []) = some r
        ∧ r.dims = envNoFont.templateDims ∧ r.usedDefaultFont = true :=
  ⟨rfl, rfl, rfl, c9_missing_font_render_succeeds envNoFont [] rfl rfl rfl⟩

/-- The six field keys drawn by `content_map`, in drawing order. -/
def vKey : Nat → String
  | 0 => "v0"
  | 1 => "v1"
  | 2 => "v2"
  | 3 => "v3"
  | 4 => "v4"
  | 5 => "v5"
  | _ => ""

/-- C10: for every string-valued details dictionary (template present, save
succeeding), image generation proceeds, and each of the six drawn texts whose
key `v0..v5` is absent from the dictionary is the literal placeholder `N/A`;
no such key is required for rendering to succeed. -/
theorem c10_missing_fields_drawn_na (env : RenderEnv) (d : List (String × String))
    (ht : env.templateExists = true) (hs : env.saveOk = true) :
    ∃ r, generate_image env (sdict d) = some r
      ∧ ∀ i : Nat, i < 6 → vKey i ∉ d.map Prod.fst → r.drawnTexts.getD i "" = "N/A" := by
  simp only [generate_image, ht, hs, jdictGet_sdict_str, pyStr_str]
  refine ⟨_, rfl, ?_⟩
  intro i hi hk
  interval_cases i <;>
    simp_all [vKey, List.getD, sget_eq_none]

/-- Witness for C10: the empty details dictionary — all six keys absent — in
`envOkA`; every drawn text is `N/A`. -/
theorem c10_missing_fields_drawn_na_witness :
    envOkA.templateExists = true ∧ envOkA.saveOk = true
    ∧ ∃ r, generate_image envOkA (sdict []) = some r
        ∧ ∀ i : Nat, i < 6 → vKey i ∉ ([] : List (String × String)).map Prod.fst →
            r.drawnTexts.getD i "" = "N/A" :=
  ⟨rfl, rfl, c10_missing_fields_drawn_na envOkA [] rfl rfl⟩

/-- C2 counterexample: first invocation succeeds end-to-end (pointer set to
the first file, file on disk); the second invocation reaches rendering and
the render fails — afterwards the pointer still refers to the first file,
but the first file **no longer exists**: it was deleted before rendering
(lines 263-275 run unconditionally before `generate_image`), refuting the
claim's "the first invocation's image file still exists on disk". -/
theorem c2_first_file_deleted_counterexample :
    (handle_heyao_query (handle_heyao_query (PluginState.mk none []) invGoodA).1
        invRenderFail).1.last_image_path = some pathA
    ∧ pathA ∉ (handle_heyao_query (handle_heyao_query (PluginState.mk none []) invGoodA).1
        invRenderFail).1.files := by
  constructor
  · rfl
  · decide

/-- C2 (amended): for every second invocation that reaches rendering while
the pointer holds an existing first file, when the render fails the pointer
is neither cleared nor replaced — it still refers to the first file — but
(the pre-render deletion having succeeded) the first file no longer exists on
disk. -/
theorem c2_pointer_preserved_file_deleted (st : PluginState) (inv : Invocation)
    (p oid : String) (a : Json) (d : List (String × Json))
    (hlast : st.last_image_path = some p) (hfile : p ∈ st.files)
    (hunlink : inv.unlinkOk = true)
    (hmsg : parsedOrderId inv.message = some oid)
    (hfetch : fetch_wechat_info inv.net = some a)
    (hext : extract_order_details a oid = Extracted.ok d)
    (hgen : generate_image inv.renv d = none) :
    (handle_heyao_query st inv).1.last_image_path = some p
    ∧ p ∉ (handle_heyao_query st inv).1.files := by
  obtain ⟨hlen, hoid, hne⟩ := parsedOrderId_elim hmsg
  simp only [handle_heyao_query, hoid, hlen, hne, hfetch, hext, hgen, hlast, hfile,
    hunlink, if_true, if_false, ite_true, ite_false]
  simp [List.mem_filter, hlast]

/-- Witness for the amended C2: the concrete two-invocation run of the
counterexample, applied through the theorem. -/
theorem c2_pointer_preserved_file_deleted_witness :
    (handle_heyao_query (PluginState.mk (some pathA) [pathA]) invRenderFail).1.last_image_path
      = some pathA
    ∧ pathA ∉ (handle_heyao_query (PluginState.mk (some pathA) [pathA]) invRenderFail).1.files :=
  c2_pointer_preserved_file_deleted (PluginState.mk (some pathA) [pathA]) invRenderFail
    pathA "123" goodApi [("v0", Json.str "B1")] rfl (by decide) rfl (by decide) rfl rfl rfl

/-- C8: for every invocation whose render succeeds, the pointer is updated to
the new file **before** the delivery handoff is attempted (the trace ends
`… setPointer, imageHandoff …`); when packaging/handoff throws, the degraded
"generated but could not send" message is emitted, the new file is still on
disk (never deleted), and the pointer still refers to the new file. -/
theorem c8_pointer_set_before_handoff (st : PluginState) (inv : Invocation)
    (oid : String) (a : Json) (d : List (String × Json)) (r : RenderedImage)
    (hmsg : parsedOrderId inv.message = some oid)
    (hfetch : fetch_wechat_info inv.net = some a)
    (hext : extract_order_details a oid = Extracted.ok d)
    (hgen : generate_image inv.renv d = some r)
    (hhand : inv.handoffOk = false) :
    (handle_heyao_query st inv).1.last_image_path = some r.path
    ∧ r.path ∈ (handle_heyao_query st inv).1.files
    ∧ ∃ pre, (handle_heyao_query st inv).2
        = pre ++ [BotAction.setPointer r.path, BotAction.imageHandoff r.path false,
                  BotAction.plainMsg "生成图片成功，但发送时遇到问题。"] := by
  obtain ⟨hlen, hoid, hne⟩ := parsedOrderId_elim hmsg
  refine ⟨?_, ?_, ?_⟩
  · simp only [handle_heyao_query, hoid, hfetch, hext, hgen, hhand]
    simp [hlen, hne]
  · simp only [handle_heyao_query, hoid, hfetch, hext, hgen, hhand]
    simp [hlen, hne]
  · simp only [handle_heyao_query, hoid, hfetch, hext, hgen, hhand]
    simp [hlen, hne]
    exact exists_pre_cons_cons _ _ _ _

/-- The image produced by rendering `goodApi`'s details in `envOkA`. -/
def imgB1 : RenderedImage :=
  RenderedImage.mk pathA (1, 1) ["B1", "N/A", "N/A", "N/A", "N/A", "N/A"]
    "2026-01-02 03:04:05" false

/-- Witness for C8: a concrete successful render whose handoff throws. -/
theorem c8_pointer_set_before_handoff_witness :
    (handle_heyao_query (PluginState.mk none [])
        (Invocation.mk "heyao 123" (NetOutcome.response 200 (some goodApi)) true envOkA false)).1.last_image_path
      = some imgB1.path
    ∧ imgB1.path ∈ (handle_heyao_query (PluginState.mk none [])
        (Invocation.mk "heyao 123" (NetOutcome.response 200 (some goodApi)) true envOkA false)).1.files
    ∧ ∃ pre, (handle_heyao_query (PluginState.mk none [])
        (Invocation.mk "heyao 123" (NetOutcome.response 200 (some goodApi)) true envOkA false)).2
        = pre ++ [BotAction.setPointer imgB1.path, BotAction.imageHandoff imgB1.path false,
                  BotAction.plainMsg "生成图片成功，但发送时遇到问题。"] :=
  c8_pointer_set_before_handoff (PluginState.mk none [])
    (Invocation.mk "heyao 123" (NetOutcome.response 200 (some goodApi)) true envOkA false)
    "123" goodApi [("v0", Json.str "B1")] imgB1 (by decide) rfl rfl rfl rfl
